import Mathlib

/-!
Verification development for the Telegram priority-notifier core.

The Python sources are shallowly embedded as pure Lean functions:

* `src/src/state.py` (`StateManager`) becomes a record `StateManager` with
  explicit state-passing operations; `time.time()` becomes an explicit
  `now : Int` argument at every call site that reads the clock.
* The JSON state file becomes the record `SavedState`; `save` produces it
  and `load` consumes an `Option SavedState` (`none` = missing file).
* Python dicts that are iterated in insertion order (`processed_messages`,
  the two contact lists) become association lists with insert-or-update
  semantics.
* `src/src/notifier.py` (`NotificationSink.send_alert`) becomes a loop over
  an abstract response channel `Nat → SendResponse` giving the outcome of
  each HTTP attempt; sleeps are erased (they do not affect the result).
* `src/main.py` (`TelegramPriorityNotifier._deliver_snooze_queue` and the
  snooze branch of the scheduler tick in `run`) becomes a trace-producing
  function so that the relative order of clearing the queue and attempting
  deliveries is observable.
-/

set_option autoImplicit false

namespace TgNotifier

/-- Value stored in `StateManager.processed_messages` for one dedup key:
`{'timestamp': time.time(), 'trigger_type': trigger_type}` (state.py 73-76). -/
structure ProcessedRecord where
  timestamp : Int
  trigger_type : String
deriving DecidableEq, Repr

/-- One entry of the snooze queue, as enqueued by `handle_message`
(main.py 266-271): rendered message, trigger category, chat id, message id. -/
structure AlertData where
  message : String
  trigger_type : String
  chat_id : Int
  message_id : Int
deriving DecidableEq, Repr

/-- Association-list model of a Python dict keyed by strings, in insertion
order: updating an existing key keeps its position, a new key is appended. -/
def dictInsert (k : String) (v : ProcessedRecord) :
    List (String × ProcessedRecord) → List (String × ProcessedRecord)
  | [] => [(k, v)]
  | (k1, v1) :: rest =>
      if k1 = k then (k, v) :: rest else (k1, v1) :: dictInsert k v rest

/-- Python `key in dict` / `dict.get(key)` on the association-list model. -/
def dictLookup (k : String) : List (String × ProcessedRecord) → Option ProcessedRecord
  | [] => none
  | (k1, v1) :: rest => if k1 = k then some v1 else dictLookup k rest

/-- Python membership test `contact_id in self.priority_whitelist` on the
contact-dict model (`Dict[int, str]`). -/
def contactMem (id : Int) (l : List (Int × String)) : Bool :=
  l.any (fun kv => kv.1 == id)

/-- In-memory state of `StateManager` (state.py 24-49).  `queue_limit` is
`DEFAULT_QUEUE_LIMIT = 100` and has no setter anywhere in the code. -/
structure StateManager where
  processed_messages : List (String × ProcessedRecord)
  last_cleanup : Int
  priority_mode : String
  priority_whitelist : List (Int × String)
  priority_blacklist : List (Int × String)
  snooze_active : Bool
  snooze_until : Option Int
  snooze_behavior : String
  snooze_queue : List AlertData
  queue_limit : Nat
  timezone_offset : Int
deriving DecidableEq, Repr

/-- Field defaults assigned in `StateManager.__init__` (state.py 30-47),
before `load()` runs; `now` stands for the `time.time()` stored in
`last_cleanup`. -/
def initial (now : Int) : StateManager :=
  { processed_messages := []
    last_cleanup := now
    priority_mode := "disabled"
    priority_whitelist := []
    priority_blacklist := []
    snooze_active := false
    snooze_until := none
    snooze_behavior := "drop"
    snooze_queue := []
    queue_limit := 100
    timezone_offset := 0 }

/-- `StateManager._make_key` (state.py 79-89): the composite key
`f"{chat_id}:{message_id}"`. -/
def make_key (chat_id message_id : Int) : String :=
  toString chat_id ++ ":" ++ toString message_id

/-- `StateManager.is_processed` (state.py 51-62). -/
def is_processed (s : StateManager) (chat_id message_id : Int) : Bool :=
  (dictLookup (make_key chat_id message_id) s.processed_messages).isSome

/-- `StateManager.mark_processed` (state.py 64-77).  `save()` is called at
the end; it has no effect on the in-memory state (its output is modelled by
`save` below). -/
def mark_processed (s : StateManager) (chat_id message_id : Int)
    (trigger_type : String) (now : Int) : StateManager :=
  { s with processed_messages :=
      dictInsert (make_key chat_id message_id) ⟨now, trigger_type⟩ s.processed_messages }

/-- The JSON object written by `StateManager.save` (state.py 171-186).
Contact-list keys are stringified on save and re-parsed as ints on load. -/
structure SavedState where
  processed_messages : List (String × ProcessedRecord)
  last_cleanup : Int
  mode : String
  whitelist : List (String × String)
  blacklist : List (String × String)
  snooze_active : Bool
  snooze_until : Option Int
  snooze_behavior : String
  snooze_queue : List AlertData
  timezone_offset : Int
deriving DecidableEq, Repr

/-- `StateManager.save` (state.py 166-196): the snapshot written (atomically)
to the state file. -/
def save (s : StateManager) : SavedState :=
  { processed_messages := s.processed_messages
    last_cleanup := s.last_cleanup
    mode := s.priority_mode
    whitelist := s.priority_whitelist.map (fun kv => (toString kv.1, kv.2))
    blacklist := s.priority_blacklist.map (fun kv => (toString kv.1, kv.2))
    snooze_active := s.snooze_active
    snooze_until := s.snooze_until
    snooze_behavior := s.snooze_behavior
    snooze_queue := s.snooze_queue
    timezone_offset := s.timezone_offset }

/-- Python truthiness of `self.snooze_until` (a float or None): falsy when
`None` or `0.0`. -/
def untilTruthy : Option Int → Bool
  | none => false
  | some x => decide (x ≠ 0)

/-- `StateManager.check_snooze_expired` (state.py 395-407): if
`self.snooze_active and self.snooze_until` and `time.time() > self.snooze_until`,
set `snooze_active = False` (keeping the queue) and return True; else False. -/
def check_snooze_expired (s : StateManager) (now : Int) : Bool × StateManager :=
  if s.snooze_active && untilTruthy s.snooze_until then
    if now > (s.snooze_until.getD 0) then
      (true, { s with snooze_active := false })
    else (false, s)
  else (false, s)

/-- `int(k)` applied to a key that `save` wrote with `str(k)`. -/
def strToInt (s : String) : Int :=
  (s.toInt?).getD 0

/-- `StateManager._reset_state` (state.py 153-164): resets every persisted
field to its default (`queue_limit` is not touched; `now` is the
`time.time()` stored in `last_cleanup`). -/
def reset_state (s : StateManager) (now : Int) : StateManager :=
  { s with
    processed_messages := []
    last_cleanup := now
    priority_mode := "disabled"
    priority_whitelist := []
    priority_blacklist := []
    snooze_active := false
    snooze_until := none
    snooze_behavior := "drop"
    snooze_queue := []
    timezone_offset := 0 }

/-- The field assignments of `StateManager.load` (state.py 100-120) on a
fresh manager, before the downtime-expiry check. -/
def loadFields (d : SavedState) (now : Int) : StateManager :=
  { initial now with
    processed_messages := d.processed_messages
    last_cleanup := d.last_cleanup
    priority_mode := d.mode
    priority_whitelist := d.whitelist.map (fun kv => (strToInt kv.1, kv.2))
    priority_blacklist := d.blacklist.map (fun kv => (strToInt kv.1, kv.2))
    snooze_active := d.snooze_active
    snooze_until := d.snooze_until
    snooze_behavior := d.snooze_behavior
    snooze_queue := d.snooze_queue
    timezone_offset := d.timezone_offset }

/-- `StateManager.load` (state.py 91-151) on a fresh manager: `none` models a
missing state file (start from `initial`); `some d` models a readable file.
Lines 123-127 re-run the expiry check for snoozes that lapsed during
downtime, which is exactly the mutation of `check_snooze_expired`.  The
status logging at lines 129-134 is still inside the `try`: when
`snooze_active` is truthy but `snooze_until` is `None`, line 133 computes
`self.snooze_until - time.time()` and raises `TypeError`, which the generic
`except` at line 149 handles by calling `_reset_state()` — wiping every
loaded field.  That is the only statement in the block that can raise on a
decoded file, so the model resets exactly when the post-check state has
`snooze_active` set and no `snooze_until`. -/
def load (file : Option SavedState) (now : Int) : StateManager :=
  match file with
  | none => initial now
  | some d =>
      let s1 := (check_snooze_expired (loadFields d now) now).2
      if s1.snooze_active && s1.snooze_until.isNone then reset_state s1 now
      else s1

/-- `StateManager.cleanup_old_entries` (state.py 198-217): keeps the entries
with `v.get('timestamp', 0) > cutoff_time` where
`cutoff_time = time.time() - days*24*60*60`; `last_cleanup` (and a `save()`)
happen only when something was removed. -/
def cleanup_old_entries (s : StateManager) (days : Nat) (now : Int) : StateManager :=
  let cutoff_time : Int := now - (days * 24 * 60 * 60 : Nat)
  let kept := s.processed_messages.filter (fun kv => decide (kv.2.timestamp > cutoff_time))
  if kept.length < s.processed_messages.length then
    { s with processed_messages := kept, last_cleanup := now }
  else
    { s with processed_messages := kept }

/-- `StateManager.set_priority_mode` (state.py 231-252).  The Python method
raises `ValueError` on an illegal mode before any mutation; the pair returns
the (possibly unchanged) state together with `Except.error` for the raise or
`Except.ok warning` for the normal return. -/
def set_priority_mode (s : StateManager) (mode : String) :
    StateManager × Except String String :=
  if mode != "disabled" && mode != "whitelist" && mode != "blacklist" then
    (s, Except.error ("Invalid mode: " ++ mode))
  else
    let old_mode := s.priority_mode
    let warning :=
      if (old_mode == "whitelist" || old_mode == "blacklist") &&
         (mode == "whitelist" || mode == "blacklist") && old_mode != mode then
        "Switched from " ++ old_mode ++ " to " ++ mode ++
          " mode. The other list is preserved but inactive."
      else ""
    ({ s with priority_mode := mode }, Except.ok warning)

/-- `StateManager.add_priority_contact` (state.py 254-268): False if the id
is already a whitelist key, else insert (a new dict key is appended) and
True. -/
def add_priority_contact (s : StateManager) (contact_id : Int)
    (display_name : String) : Bool × StateManager :=
  if contactMem contact_id s.priority_whitelist then (false, s)
  else (true, { s with
    priority_whitelist := s.priority_whitelist ++ [(contact_id, display_name)] })

/-- `StateManager.remove_priority_contact` (state.py 270-283). -/
def remove_priority_contact (s : StateManager) (contact_id : Int) :
    Bool × StateManager :=
  if contactMem contact_id s.priority_whitelist then
    (true, { s with
      priority_whitelist := s.priority_whitelist.filter (fun kv => kv.1 != contact_id) })
  else (false, s)

/-- `StateManager.add_muted_contact` (state.py 285-299). -/
def add_muted_contact (s : StateManager) (contact_id : Int)
    (display_name : String) : Bool × StateManager :=
  if contactMem contact_id s.priority_blacklist then (false, s)
  else (true, { s with
    priority_blacklist := s.priority_blacklist ++ [(contact_id, display_name)] })

/-- `StateManager.remove_muted_contact` (state.py 301-314). -/
def remove_muted_contact (s : StateManager) (contact_id : Int) :
    Bool × StateManager :=
  if contactMem contact_id s.priority_blacklist then
    (true, { s with
      priority_blacklist := s.priority_blacklist.filter (fun kv => kv.1 != contact_id) })
  else (false, s)

/-- `StateManager.clear_queue` (state.py 463-466); also the state effect of
the queue-emptying in `_check_startup_snooze` (main.py 211-213). -/
def clear_queue (s : StateManager) : StateManager :=
  { s with snooze_queue := [] }

/-- `StateManager.set_timezone_offset` (state.py 480-488). -/
def set_timezone_offset (s : StateManager) (offset : Int) : StateManager :=
  { s with timezone_offset := offset }

/-- `StateManager.should_process_message` (state.py 316-337). -/
def should_process_message (s : StateManager) (sender_id chat_id : Int) : Bool :=
  if s.priority_mode == "disabled" then true
  else if s.priority_mode == "whitelist" then
    contactMem sender_id s.priority_whitelist || contactMem chat_id s.priority_whitelist
  else if s.priority_mode == "blacklist" then
    !contactMem sender_id s.priority_blacklist && !contactMem chat_id s.priority_blacklist
  else true

/-- `StateManager.activate_snooze` (state.py 368-379): unconditionally sets
`snooze_active = True`, `snooze_until = time.time() + duration_seconds`,
`snooze_behavior = "queue" if queue_mode else "drop"`, then saves.  The
method performs no validation of `duration_seconds`. -/
def activate_snooze (s : StateManager) (duration_seconds : Int)
    (queue_mode : Bool) (now : Int) : StateManager :=
  { s with
    snooze_active := true
    snooze_until := some (now + duration_seconds)
    snooze_behavior := if queue_mode then "queue" else "drop" }

/-- `StateManager.deactivate_snooze` (state.py 381-393): returns the queued
alerts and resets `active`, `until`, and the queue. -/
def deactivate_snooze (s : StateManager) : List AlertData × StateManager :=
  (s.snooze_queue,
   { s with snooze_active := false, snooze_until := none, snooze_queue := [] })

/-- `StateManager.is_snoozed` (state.py 409-416): runs the lazy expiry check,
then returns `snooze_active`. -/
def is_snoozed (s : StateManager) (now : Int) : Bool × StateManager :=
  let r := check_snooze_expired s now
  (r.2.snooze_active, r.2)

/-- `StateManager.snooze_remaining_seconds` (state.py 418-427):
`None` if `not self.snooze_active or not self.snooze_until`, else
`max(0, until - now)`. -/
def snooze_remaining_seconds (s : StateManager) (now : Int) : Option Int :=
  if !s.snooze_active || !untilTruthy s.snooze_until then none
  else some (max 0 (s.snooze_until.getD 0 - now))

/-- `StateManager.queue_alert` (state.py 429-453): returns False when
`snooze_behavior != "queue"`; otherwise pops the oldest entry when the queue
is at `queue_limit`, appends, saves, and returns True. -/
def queue_alert (s : StateManager) (alert_data : AlertData) : Bool × StateManager :=
  if s.snooze_behavior != "queue" then (false, s)
  else
    let q :=
      if s.queue_limit ≤ s.snooze_queue.length then s.snooze_queue.tail
      else s.snooze_queue
    (true, { s with snooze_queue := q ++ [alert_data] })

/-- Threading a sequence of `queue_alert` calls through the state. -/
def enqueueFold (s : StateManager) (alerts : List AlertData) : StateManager :=
  alerts.foldl (fun st a => (queue_alert st a).2) s

/-! ### DeliveryClient (`src/src/notifier.py`) -/

/-- Outcome of one HTTP attempt inside `NotificationSink.send_alert`
(notifier.py 62-119): status 200; status 429 with an optional
platform-supplied retry-after; any other non-200 status with a description;
`aiohttp.ClientError`; any other exception.  Every non-success outcome takes
the same control path: retry if attempts remain, else return False. -/
inductive SendResponse where
  | success
  | rateLimited (retry_after : Option Nat)
  | apiError (description : String)
  | networkError
  | unexpectedError
deriving DecidableEq, Repr

/-- True for every outcome of an attempt other than a 200 response. -/
def isFailure : SendResponse → Bool
  | SendResponse.success => false
  | _ => true

/-- The `for attempt in range(max_retries)` loop of
`NotificationSink.send_alert`, with the channel abstracted as
`responses : Nat → SendResponse` (outcome of attempt number `attempt`) and
sleeps erased.  `fuel` is the number of loop iterations left, initially
`max_retries`.  Returns the boolean result together with the number of
attempts actually made. -/
def send_alert_loop (responses : Nat → SendResponse) (max_retries : Nat) :
    Nat → Nat → Bool × Nat
  | attempt, 0 => (false, attempt)
  | attempt, fuel + 1 =>
      match responses attempt with
      | SendResponse.success => (true, attempt + 1)
      | _ =>
          if attempt + 1 < max_retries then
            send_alert_loop responses max_retries (attempt + 1) fuel
          else (false, attempt + 1)

/-- `NotificationSink.send_alert` (notifier.py 49-121): retry loop starting
at attempt 0; the default attempt ceiling at every call site is
`max_retries = 3`.  Total by construction: every exception inside the loop
body is caught, so the method always returns a boolean. -/
def send_alert (responses : Nat → SendResponse) (max_retries : Nat) : Bool × Nat :=
  send_alert_loop responses max_retries 0 max_retries

/-! ### Orchestrator snooze flush (`src/main.py`) -/

/-- What one queued entry's delivery does inside the flush loop
(main.py 352-359): `send_alert` returns normally (True or False — the loop
ignores which and counts the entry delivered) or raises (caught and logged,
loop continues). -/
inductive DOutcome where
  | returned (ok : Bool)
  | raised
deriving DecidableEq, Repr

/-- Observable events of `_deliver_snooze_queue`, in program order:
clearing-and-saving the queue, and each `send_alert` dispatch. -/
inductive FlushEvent where
  | queueCleared
  | sendAttempt (message : String)
deriving DecidableEq, Repr

/-- The `for alert in queued` loop of `_deliver_snooze_queue`
(main.py 352-359): entries with a falsy `message` are skipped; every other
entry gets one `send_alert` dispatch in list order; an entry whose dispatch
raises is caught and does not stop the loop.  `send idx msg` is the outcome
of the dispatch for the entry at position `idx`.  Returns the event trace
and the `delivered` counter. -/
def deliverLoop (send : Nat → String → DOutcome) :
    Nat → List AlertData → List FlushEvent × Nat
  | _, [] => ([], 0)
  | idx, a :: rest =>
      let r := deliverLoop send (idx + 1) rest
      if a.message = "" then r
      else
        (FlushEvent.sendAttempt a.message :: r.1,
         match send idx a.message with
         | DOutcome.raised => r.2
         | DOutcome.returned _ => r.2 + 1)

/-- `TelegramPriorityNotifier._deliver_snooze_queue` (main.py 343-361): if the
queue is nonempty, copy it, clear it on the state, `save()`, then run the
delivery loop over the copy.  Returns the new state, the event trace, and
the `delivered` counter. -/
def deliver_snooze_queue (s : StateManager) (send : Nat → String → DOutcome) :
    StateManager × List FlushEvent × Nat :=
  if s.snooze_queue = [] then (s, [], 0)
  else
    let queued := s.snooze_queue
    let s1 := { s with snooze_queue := [] }
    let r := deliverLoop send 0 queued
    (s1, FlushEvent.queueCleared :: r.1, r.2)

/-- The snooze branch of one scheduler tick in `TelegramPriorityNotifier.run`
(main.py 331-333): `if self.state.check_snooze_expired(): await
self._deliver_snooze_queue()`. -/
def run_tick_snooze (s : StateManager) (now : Int)
    (send : Nat → String → DOutcome) : StateManager × List FlushEvent × Nat :=
  let r := check_snooze_expired s now
  if r.1 then deliver_snooze_queue r.2 send else (r.2, [], 0)

/-- Invariant of every `StateManager` the program constructs: an active
snooze always carries an expiry timestamp.  `__init__` starts inactive,
`activate_snooze` sets `until`, every deactivation path clears `active`, and
`load` resets the whole state on the one file shape that would violate it
(see `reachable_snooze_inv`). -/
def SnoozeUntilInv (s : StateManager) : Prop :=
  s.snooze_active = true → s.snooze_until ≠ none

/-- The `StateManager` values the program can construct: a manager comes
into existence through `__init__` + `load` and is then only mutated by the
`StateManager` methods and the two orchestrator paths that touch the
queue. -/
inductive Reachable : StateManager → Prop where
  | boot (file : Option SavedState) (now : Int) : Reachable (load file now)
  | mark (s : StateManager) (c m : Int) (t : String) (now : Int) :
      Reachable s → Reachable (mark_processed s c m t now)
  | cleanup (s : StateManager) (days : Nat) (now : Int) :
      Reachable s → Reachable (cleanup_old_entries s days now)
  | setMode (s : StateManager) (mode : String) :
      Reachable s → Reachable ((set_priority_mode s mode).1)
  | addPriority (s : StateManager) (id : Int) (nm : String) :
      Reachable s → Reachable ((add_priority_contact s id nm).2)
  | removePriority (s : StateManager) (id : Int) :
      Reachable s → Reachable ((remove_priority_contact s id).2)
  | addMuted (s : StateManager) (id : Int) (nm : String) :
      Reachable s → Reachable ((add_muted_contact s id nm).2)
  | removeMuted (s : StateManager) (id : Int) :
      Reachable s → Reachable ((remove_muted_contact s id).2)
  | activate (s : StateManager) (d : Int) (q : Bool) (now : Int) :
      Reachable s → Reachable (activate_snooze s d q now)
  | deactivate (s : StateManager) :
      Reachable s → Reachable (deactivate_snooze s).2
  | checkExpiry (s : StateManager) (now : Int) :
      Reachable s → Reachable (check_snooze_expired s now).2
  | snoozeQuery (s : StateManager) (now : Int) :
      Reachable s → Reachable (is_snoozed s now).2
  | enqueue (s : StateManager) (a : AlertData) :
      Reachable s → Reachable (queue_alert s a).2
  | clearQueue (s : StateManager) :
      Reachable s → Reachable (clear_queue s)
  | setTimezone (s : StateManager) (o : Int) :
      Reachable s → Reachable (set_timezone_offset s o)
  | flush (s : StateManager) (send : Nat → String → DOutcome) :
      Reachable s → Reachable (deliver_snooze_queue s send).1
  | tick (s : StateManager) (now : Int) (send : Nat → String → DOutcome) :
      Reachable s → Reachable (run_tick_snooze s now send).1

/-! ### Helper lemmas -/

/-- Inserting a key makes it found, with the inserted value. -/
theorem dictLookup_dictInsert (k : String) (v : ProcessedRecord)
    (l : List (String × ProcessedRecord)) :
    dictLookup k (dictInsert k v l) = some v := by
  induction l with
  | nil => simp [dictInsert, dictLookup]
  | cons hd tl ih =>
      obtain ⟨k1, v1⟩ := hd
      by_cases h : k1 = k <;> simp [dictInsert, dictLookup, h, ih]

/-- The lazy expiry check either leaves the state alone or only clears
`snooze_active`. -/
theorem check_snooze_expired_cases (s : StateManager) (now : Int) :
    (check_snooze_expired s now).2 = s ∨
    (check_snooze_expired s now).2 = { s with snooze_active := false } := by
  unfold check_snooze_expired
  split
  · split
    · exact Or.inr rfl
    · exact Or.inl rfl
  · exact Or.inl rfl

/-- The lazy expiry check never touches the dedup map. -/
theorem check_snooze_expired_processed (s : StateManager) (now : Int) :
    ((check_snooze_expired s now).2).processed_messages = s.processed_messages := by
  rcases check_snooze_expired_cases s now with h | h <;> rw [h]

/-- The lazy expiry check never touches the snooze queue. -/
theorem check_snooze_expired_queue (s : StateManager) (now : Int) :
    ((check_snooze_expired s now).2).snooze_queue = s.snooze_queue := by
  rcases check_snooze_expired_cases s now with h | h <;> rw [h]

/-- The lazy expiry check never touches the expiry timestamp. -/
theorem check_snooze_expired_until (s : StateManager) (now : Int) :
    ((check_snooze_expired s now).2).snooze_until = s.snooze_until := by
  rcases check_snooze_expired_cases s now with h | h <;> rw [h]

/-- The lazy expiry check never turns an inactive snooze on. -/
theorem check_snooze_expired_inactive (s : StateManager) (now : Int)
    (h : s.snooze_active = false) :
    ((check_snooze_expired s now).2).snooze_active = false := by
  rcases check_snooze_expired_cases s now with h2 | h2
  · rw [h2]
    exact h
  · rw [h2]

/-- A file whose snooze carries an expiry timestamp whenever it is active
does not hit the `TypeError` reset path of `load`. -/
theorem load_no_reset (d : SavedState) (now : Int)
    (hinv : d.snooze_active = true → d.snooze_until ≠ none) :
    load (some d) now = (check_snooze_expired (loadFields d now) now).2 := by
  unfold load
  dsimp only
  rw [if_neg]
  intro hcond
  rw [Bool.and_eq_true] at hcond
  have huntil : ((check_snooze_expired (loadFields d now) now).2).snooze_until =
      d.snooze_until := check_snooze_expired_until (loadFields d now) now
  cases ha : d.snooze_active with
  | false =>
      have : ((check_snooze_expired (loadFields d now) now).2).snooze_active = false :=
        check_snooze_expired_inactive (loadFields d now) now ha
      rw [this] at hcond
      exact Bool.false_ne_true hcond.1
  | true =>
      have hne := hinv ha
      rw [huntil] at hcond
      cases hu : d.snooze_until with
      | none => exact hne hu
      | some u =>
          rw [hu] at hcond
          exact Bool.false_ne_true hcond.2

/-- Loading a saved file restores the dedup map verbatim, provided the file
does not hit the `TypeError` reset path (its snooze carries an expiry
timestamp whenever it is active). -/
theorem load_processed (d : SavedState) (now : Int)
    (hinv : d.snooze_active = true → d.snooze_until ≠ none) :
    (load (some d) now).processed_messages = d.processed_messages := by
  rw [load_no_reset d now hinv, check_snooze_expired_processed]
  rfl

/-- `contactMem` agrees with membership of the id among the dict keys. -/
theorem contactMem_iff (i : Int) (l : List (Int × String)) :
    contactMem i l = true ↔ i ∈ l.map Prod.fst := by
  simp [contactMem, List.mem_map]

/-- Both branches of `cleanup_old_entries` set the dedup map to the same
filtered list. -/
theorem cleanup_processed (s : StateManager) (days : Nat) (now : Int) :
    (cleanup_old_entries s days now).processed_messages =
      s.processed_messages.filter
        (fun kv => decide (kv.2.timestamp > now - (days * 24 * 60 * 60 : Nat))) := by
  unfold cleanup_old_entries
  dsimp only
  split <;> rfl

/-- Every state the program constructs satisfies `SnoozeUntilInv`: no
`StateManager` with an active snooze and no expiry timestamp ever exists in
memory (`load` resets the whole state on the one file shape that would
produce one, via the `TypeError` at state.py 133). -/
theorem reachable_snooze_inv (s : StateManager) (h : Reachable s) :
    SnoozeUntilInv s := by
  induction h with
  | boot file now =>
      intro hact
      cases file with
      | none => exact absurd hact (by simp [load, initial])
      | some d =>
          unfold load at hact ⊢
          dsimp only at hact ⊢
          split at hact
          · exact absurd hact (by simp [reset_state])
          · rename_i hcond
            rw [if_neg hcond]
            intro hu
            apply hcond
            rw [hact, hu]
            rfl
  | mark s c m t now _ ih => exact ih
  | cleanup s days now _ ih =>
      intro hact
      have h1 : (cleanup_old_entries s days now).snooze_active = s.snooze_active := by
        unfold cleanup_old_entries
        dsimp only
        split <;> rfl
      have h2 : (cleanup_old_entries s days now).snooze_until = s.snooze_until := by
        unfold cleanup_old_entries
        dsimp only
        split <;> rfl
      rw [h2]
      exact ih (h1 ▸ hact)
  | setMode s mode _ ih =>
      intro hact
      have h1 : ((set_priority_mode s mode).1).snooze_active = s.snooze_active := by
        unfold set_priority_mode
        dsimp only
        split <;> rfl
      have h2 : ((set_priority_mode s mode).1).snooze_until = s.snooze_until := by
        unfold set_priority_mode
        dsimp only
        split <;> rfl
      rw [h2]
      exact ih (h1 ▸ hact)
  | addPriority s id nm _ ih =>
      intro hact
      have h1 : ((add_priority_contact s id nm).2).snooze_active = s.snooze_active := by
        unfold add_priority_contact
        split <;> rfl
      have h2 : ((add_priority_contact s id nm).2).snooze_until = s.snooze_until := by
        unfold add_priority_contact
        split <;> rfl
      rw [h2]
      exact ih (h1 ▸ hact)
  | removePriority s id _ ih =>
      intro hact
      have h1 : ((remove_priority_contact s id).2).snooze_active = s.snooze_active := by
        unfold remove_priority_contact
        split <;> rfl
      have h2 : ((remove_priority_contact s id).2).snooze_until = s.snooze_until := by
        unfold remove_priority_contact
        split <;> rfl
      rw [h2]
      exact ih (h1 ▸ hact)
  | addMuted s id nm _ ih =>
      intro hact
      have h1 : ((add_muted_contact s id nm).2).snooze_active = s.snooze_active := by
        unfold add_muted_contact
        split <;> rfl
      have h2 : ((add_muted_contact s id nm).2).snooze_until = s.snooze_until := by
        unfold add_muted_contact
        split <;> rfl
      rw [h2]
      exact ih (h1 ▸ hact)
  | removeMuted s id _ ih =>
      intro hact
      have h1 : ((remove_muted_contact s id).2).snooze_active = s.snooze_active := by
        unfold remove_muted_contact
        split <;> rfl
      have h2 : ((remove_muted_contact s id).2).snooze_until = s.snooze_until := by
        unfold remove_muted_contact
        split <;> rfl
      rw [h2]
      exact ih (h1 ▸ hact)
  | activate s d q now _ _ =>
      intro _
      simp [activate_snooze]
  | deactivate s _ _ =>
      intro hact
      exact absurd hact (by simp [deactivate_snooze])
  | checkExpiry s now _ ih =>
      intro hact
      rw [check_snooze_expired_until]
      rcases check_snooze_expired_cases s now with h | h <;> rw [h] at hact
      · exact ih hact
      · exact absurd hact (by simp)
  | snoozeQuery s now _ ih =>
      intro hact
      unfold is_snoozed at hact ⊢
      dsimp only at hact ⊢
      rw [check_snooze_expired_until]
      rcases check_snooze_expired_cases s now with h | h <;> rw [h] at hact
      · exact ih hact
      · exact absurd hact (by simp)
  | enqueue s a _ ih =>
      intro hact
      have h1 : ((queue_alert s a).2).snooze_active = s.snooze_active := by
        unfold queue_alert
        split <;> rfl
      have h2 : ((queue_alert s a).2).snooze_until = s.snooze_until := by
        unfold queue_alert
        split <;> rfl
      rw [h2]
      exact ih (h1 ▸ hact)
  | clearQueue s _ ih => exact ih
  | setTimezone s o _ ih => exact ih
  | flush s send _ ih =>
      intro hact
      have h1 : ((deliver_snooze_queue s send).1).snooze_active = s.snooze_active := by
        unfold deliver_snooze_queue
        split <;> rfl
      have h2 : ((deliver_snooze_queue s send).1).snooze_until = s.snooze_until := by
        unfold deliver_snooze_queue
        split <;> rfl
      rw [h2]
      exact ih (h1 ▸ hact)
  | tick s now send _ ih =>
      intro hact
      unfold run_tick_snooze at hact ⊢
      dsimp only at hact ⊢
      have hJ : SnoozeUntilInv (check_snooze_expired s now).2 := by
        intro hact2
        rw [check_snooze_expired_until]
        rcases check_snooze_expired_cases s now with h | h <;> rw [h] at hact2
        · exact ih hact2
        · exact absurd hact2 (by simp)
      by_cases hr : (check_snooze_expired s now).1 = true
      · rw [if_pos hr] at hact ⊢
        have h1 : ∀ (sx : StateManager),
            ((deliver_snooze_queue sx send).1).snooze_active = sx.snooze_active := by
          intro sx
          unfold deliver_snooze_queue
          split <;> rfl
        have h2 : ∀ (sx : StateManager),
            ((deliver_snooze_queue sx send).1).snooze_until = sx.snooze_until := by
          intro sx
          unfold deliver_snooze_queue
          split <;> rfl
        rw [h2]
        exact hJ (h1 _ ▸ hact)
      · rw [if_neg hr] at hact ⊢
        exact hJ hact

/-! ### Claim theorems -/

/-- C1: for every chat id, message id and trigger category, after
`mark_processed(chatId, messageId, category)`, `is_processed(chatId,
messageId)` returns true, and it still returns true on a fresh
`StateManager` after a `save()` followed by `load()` of the same state
file.  The hypothesis restricts to states whose active snooze carries an
expiry timestamp: by `reachable_snooze_inv` this covers every state the
program constructs (a saved file violating it would make `load` reset the
fresh manager through the `TypeError` path of state.py 133/149). -/
theorem mark_processed_roundtrip (s : StateManager) (c m : Int) (t : String)
    (now now2 : Int) (hinv : SnoozeUntilInv s) :
    is_processed (mark_processed s c m t now) c m = true ∧
    is_processed (load (some (save (mark_processed s c m t now))) now2) c m = true := by
  constructor
  · unfold is_processed mark_processed
    simp [dictLookup_dictInsert]
  · unfold is_processed
    rw [load_processed _ _ (fun h => hinv h)]
    unfold save mark_processed
    simp [dictLookup_dictInsert]

/-- C1 witness: the round-trip at a concrete reachable state (the boot
state `load none 0`, i.e. a missing state file). -/
theorem mark_processed_roundtrip_witness :
    SnoozeUntilInv (load none 0) ∧
    is_processed (mark_processed (load none 0) 1 2 "DM" 5) 1 2 = true ∧
    is_processed
      (load (some (save (mark_processed (load none 0) 1 2 "DM" 5))) 6) 1 2 = true :=
  ⟨reachable_snooze_inv (load none 0) (Reachable.boot none 0),
   mark_processed_roundtrip (load none 0) 1 2 "DM" 5 6
     (reachable_snooze_inv (load none 0) (Reachable.boot none 0))⟩

/-- State with `snooze_active = False` but `snooze_behavior = "queue"`
(reachable: `check_snooze_expired` clears `active` and keeps `behavior`). -/
def cexInactiveQueueState : StateManager :=
  { initial 0 with snooze_active := false, snooze_behavior := "queue" }

/-- A concrete alert payload. -/
def cexAlert : AlertData := ⟨"hello", "DM", 1, 2⟩

/-- C3 counterexample: with snooze inactive but `snooze_behavior = "queue"`,
`queue_alert` appends and returns True — the claim requires False and an
unchanged queue for every state outside the ActiveQueue configuration. -/
theorem queue_alert_inactive_queue_cex :
    cexInactiveQueueState.snooze_active = false ∧
    (queue_alert cexInactiveQueueState cexAlert).1 = true ∧
    (queue_alert cexInactiveQueueState cexAlert).2.snooze_queue = [cexAlert] := by
  decide

/-- C3 amended: `queue_alert` keys only on `snooze_behavior`, not on
`snooze_active`: it is a no-op returning False iff `snooze_behavior ≠
"queue"`, and with behavior `"queue"` it appends (evicting the oldest entry
at capacity) and returns True even while snooze is inactive. -/
theorem queue_alert_behavior_spec (s : StateManager) (a : AlertData) :
    (s.snooze_behavior ≠ "queue" → queue_alert s a = (false, s)) ∧
    (s.snooze_behavior = "queue" →
      (queue_alert s a).1 = true ∧
      (queue_alert s a).2.snooze_queue =
        (if s.queue_limit ≤ s.snooze_queue.length then s.snooze_queue.tail
         else s.snooze_queue) ++ [a] ∧
      (queue_alert s a).2.snooze_active = s.snooze_active) := by
  unfold queue_alert
  by_cases h : s.snooze_behavior = "queue" <;> simp [h]

/-- C3 witness: both branches of `queue_alert_behavior_spec` at concrete
states. -/
theorem queue_alert_behavior_spec_witness :
    queue_alert (initial 0) cexAlert = (false, initial 0) ∧
    (queue_alert cexInactiveQueueState cexAlert).1 = true :=
  ⟨(queue_alert_behavior_spec (initial 0) cexAlert).1 (by decide),
   ((queue_alert_behavior_spec cexInactiveQueueState cexAlert).2 (by decide)).1⟩

/-- C4 counterexample: `activate_snooze(-5)` with a non-positive duration
does not fail and does change the snooze state (the claim requires an
invalid-argument error leaving the state unchanged). -/
theorem activate_snooze_nonpositive_cex :
    (initial 0).snooze_active = false ∧
    (activate_snooze (initial 0) (-5) false 100).snooze_active = true ∧
    (activate_snooze (initial 0) (-5) false 100).snooze_until = some 95 := by
  decide

/-- C4 amended: `activate_snooze` performs no validation of
`duration_seconds`: for every duration (including zero and negatives) it
succeeds, setting `active = True`, `until = now + duration`, and behavior
queue/drop according to `queue_mode`, leaving the queue contents alone. -/
theorem activate_snooze_no_validation (s : StateManager) (d : Int) (q : Bool)
    (now : Int) :
    (activate_snooze s d q now).snooze_active = true ∧
    (activate_snooze s d q now).snooze_until = some (now + d) ∧
    (activate_snooze s d q now).snooze_behavior =
      (if q then "queue" else "drop") ∧
    (activate_snooze s d q now).snooze_queue = s.snooze_queue := by
  unfold activate_snooze
  exact ⟨rfl, rfl, rfl, rfl⟩

/-- State holding one dedup record whose timestamp sits exactly at the
cleanup cutoff for `days = 30`, `now = 2592000`. -/
def cexBoundaryState : StateManager :=
  { initial 0 with processed_messages := [("1:2", ⟨0, "DM"⟩)] }

/-- C5 counterexample: with `now = 2592000` and `days = 30` the cutoff is
`0`; the record with timestamp exactly `0` is removed by
`cleanup_old_entries`, while the claim requires it to be retained. -/
theorem cleanup_boundary_cex :
    (0 : Int) = 2592000 - ((30 * 24 * 60 * 60 : Nat) : Int) ∧
    (cleanup_old_entries cexBoundaryState 30 2592000).processed_messages = [] := by
  decide

/-- C5 amended: `cleanup_old_entries` retains a record iff its timestamp is
strictly greater than the cutoff `now - days*24*60*60`; a record whose
timestamp equals the cutoff exactly is removed. -/
theorem cleanup_old_entries_membership (s : StateManager) (days : Nat)
    (now : Int) (k : String) (r : ProcessedRecord) :
    (k, r) ∈ (cleanup_old_entries s days now).processed_messages ↔
      (k, r) ∈ s.processed_messages ∧
        r.timestamp > now - (days * 24 * 60 * 60 : Nat) := by
  rw [cleanup_processed, List.mem_filter]
  simp

/-- A state file whose snooze is active with no `until` field (saved as
`"until": null`), carrying one dedup record. -/
def cexNoUntilFile : SavedState :=
  { processed_messages := [("1:2", ⟨0, "DM"⟩)]
    last_cleanup := 0
    mode := "disabled"
    whitelist := []
    blacklist := []
    snooze_active := true
    snooze_until := none
    snooze_behavior := "drop"
    snooze_queue := []
    timezone_offset := 0 }

/-- C10 counterexample: loading a concrete file with `active = true`,
`until = None` yields a manager whose snooze is INACTIVE (and whose dedup
map has been wiped), so `is_snoozed` returns false — the claim requires
`is_snoozed` to keep returning true with the snooze endable only by
`deactivate_snooze`.  (In the source the load hits `TypeError` at state.py
133 and the catch-all at 149 calls `_reset_state()`.) -/
theorem load_none_until_cex :
    cexNoUntilFile.snooze_active = true ∧
    cexNoUntilFile.snooze_until = none ∧
    cexNoUntilFile.processed_messages ≠ [] ∧
    (load (some cexNoUntilFile) 5).snooze_active = false ∧
    is_snoozed (load (some cexNoUntilFile) 5) 5 =
      (false, load (some cexNoUntilFile) 5) ∧
    (load (some cexNoUntilFile) 5).processed_messages = [] := by
  decide

/-- C10 amended: if the persisted snooze state has `active = true` but
`until = None`, then `load` raises `TypeError` at the status-logging line
(state.py 133, `None - time.time()`) inside the `try`, and the generic
`except` at line 149 resets the ENTIRE state: the loaded manager has the
snooze inactive with no expiry and drop behavior, an empty dedup map and
queue, `is_snoozed` returns false and `snooze_remaining_seconds` returns
None.  The snooze ends through this load-time reset, not through
`deactivate_snooze`; an in-memory state with `active = true` and
`until = None` never arises (see `reachable_snooze_inv`). -/
theorem load_none_until_resets (d : SavedState) (now now2 : Int)
    (ha : d.snooze_active = true) (hu : d.snooze_until = none) :
    load (some d) now = reset_state (loadFields d now) now ∧
    (load (some d) now).snooze_active = false ∧
    (load (some d) now).snooze_until = none ∧
    (load (some d) now).snooze_behavior = "drop" ∧
    (load (some d) now).processed_messages = [] ∧
    (load (some d) now).snooze_queue = [] ∧
    is_snoozed (load (some d) now) now2 = (false, load (some d) now) ∧
    snooze_remaining_seconds (load (some d) now) now2 = none := by
  have hfa : (loadFields d now).snooze_active = true := ha
  have hfu : (loadFields d now).snooze_until = none := hu
  have hcheck : check_snooze_expired (loadFields d now) now =
      (false, loadFields d now) := by
    unfold check_snooze_expired
    rw [hfu]
    simp [untilTruthy]
  have hres : load (some d) now = reset_state (loadFields d now) now := by
    unfold load
    dsimp only
    rw [hcheck]
    rw [if_pos]
    rw [hfa, hfu]
    rfl
  have hsn : is_snoozed (load (some d) now) now2 = (false, load (some d) now) := by
    unfold is_snoozed
    have : check_snooze_expired (load (some d) now) now2 =
        (false, load (some d) now) := by
      unfold check_snooze_expired
      rw [hres]
      simp [reset_state, untilTruthy]
    rw [this]
    show ((load (some d) now).snooze_active, load (some d) now) =
      (false, load (some d) now)
    rw [hres]
    rfl
  refine ⟨hres, ?_, ?_, ?_, ?_, ?_, hsn, ?_⟩
  · rw [hres]; rfl
  · rw [hres]; rfl
  · rw [hres]; rfl
  · rw [hres]; rfl
  · rw [hres]; rfl
  · unfold snooze_remaining_seconds
    rw [hres]
    simp [reset_state, untilTruthy]

/-- C10 witness: `load_none_until_resets` at the concrete file and
`now = 5`, `now2 = 7`. -/
theorem load_none_until_resets_witness :
    load (some cexNoUntilFile) 5 = reset_state (loadFields cexNoUntilFile 5) 5 ∧
    (load (some cexNoUntilFile) 5).snooze_active = false ∧
    (load (some cexNoUntilFile) 5).snooze_until = none ∧
    (load (some cexNoUntilFile) 5).snooze_behavior = "drop" ∧
    (load (some cexNoUntilFile) 5).processed_messages = [] ∧
    (load (some cexNoUntilFile) 5).snooze_queue = [] ∧
    is_snoozed (load (some cexNoUntilFile) 5) 7 =
      (false, load (some cexNoUntilFile) 5) ∧
    snooze_remaining_seconds (load (some cexNoUntilFile) 5) 7 = none :=
  load_none_until_resets cexNoUntilFile 5 7 rfl rfl

/-- Negated form of `contactMem_iff`. -/
theorem contactMem_eq_false (i : Int) (l : List (Int × String)) :
    contactMem i l = false ↔ ¬ i ∈ l.map Prod.fst := by
  rw [← contactMem_iff]
  simp

/-- State whose filter mode is whitelist, with both contact lists empty. -/
def wlState : StateManager := { initial 0 with priority_mode := "whitelist" }

/-- C6: `should_process_message` accepts everything in disabled mode; in
whitelist mode it accepts iff the sender or the chat id is a whitelist key
(so an empty whitelist rejects everything); in blacklist mode it accepts iff
neither id is a blacklist key (so an empty blacklist accepts everything). -/
theorem should_process_message_spec (s : StateManager) (sender chat : Int) :
    (s.priority_mode = "disabled" → should_process_message s sender chat = true) ∧
    (s.priority_mode = "whitelist" →
      (should_process_message s sender chat = true ↔
        sender ∈ s.priority_whitelist.map Prod.fst ∨
          chat ∈ s.priority_whitelist.map Prod.fst)) ∧
    (s.priority_mode = "blacklist" →
      (should_process_message s sender chat = true ↔
        ¬ sender ∈ s.priority_blacklist.map Prod.fst ∧
          ¬ chat ∈ s.priority_blacklist.map Prod.fst)) ∧
    (s.priority_mode = "whitelist" → s.priority_whitelist = [] →
      should_process_message s sender chat = false) ∧
    (s.priority_mode = "blacklist" → s.priority_blacklist = [] →
      should_process_message s sender chat = true) := by
  refine ⟨?_, ?_, ?_, ?_, ?_⟩
  · intro h
    simp [should_process_message, h]
  · intro h
    simp [should_process_message, h, contactMem_iff]
  · intro h
    simp [should_process_message, h, contactMem_eq_false]
  · intro h h2
    simp [should_process_message, h, h2, contactMem]
  · intro h h2
    simp [should_process_message, h, h2, contactMem]

/-- C6 witness: disabled mode accepts; whitelist mode with an empty
whitelist rejects. -/
theorem should_process_message_spec_witness :
    should_process_message (initial 0) 1 2 = true ∧
    should_process_message wlState 1 2 = false :=
  ⟨(should_process_message_spec (initial 0) 1 2).1 rfl,
   (should_process_message_spec wlState 1 2).2.2.2.1 rfl rfl⟩

/-- Both branches of `set_priority_mode` leave everything except
`priority_mode` untouched. -/
theorem spm_frame (s : StateManager) (mode : String) :
    (set_priority_mode s mode).1.priority_whitelist = s.priority_whitelist ∧
    (set_priority_mode s mode).1.priority_blacklist = s.priority_blacklist ∧
    (set_priority_mode s mode).1.processed_messages = s.processed_messages ∧
    (set_priority_mode s mode).1.snooze_queue = s.snooze_queue := by
  unfold set_priority_mode
  dsimp only
  split
  · exact ⟨rfl, rfl, rfl, rfl⟩
  · exact ⟨rfl, rfl, rfl, rfl⟩

/-- On an illegal mode `set_priority_mode` raises before mutating anything. -/
theorem spm_illegal (s : StateManager) (mode : String)
    (h : mode ≠ "disabled" ∧ mode ≠ "whitelist" ∧ mode ≠ "blacklist") :
    set_priority_mode s mode = (s, Except.error ("Invalid mode: " ++ mode)) := by
  have hg : (mode != "disabled" && mode != "whitelist" && mode != "blacklist") = true := by
    simp [bne_iff_ne]
    exact ⟨⟨h.1, h.2.1⟩, h.2.2⟩
  simp [set_priority_mode, hg]

/-- On a legal mode `set_priority_mode` sets the mode and returns a warning
that is non-empty exactly when switching directly between whitelist and
blacklist. -/
theorem spm_legal (s : StateManager) (mode : String)
    (h : mode = "disabled" ∨ mode = "whitelist" ∨ mode = "blacklist") :
    (set_priority_mode s mode).1.priority_mode = mode ∧
    ∃ w, (set_priority_mode s mode).2 = Except.ok w ∧
      (w ≠ "" ↔ ((s.priority_mode = "whitelist" ∧ mode = "blacklist") ∨
                 (s.priority_mode = "blacklist" ∧ mode = "whitelist"))) := by
  rcases h with h | h | h <;> subst h <;> refine ⟨rfl, _, rfl, ?_⟩
  · simp [set_priority_mode]
  · by_cases hb : s.priority_mode = "blacklist"
    · simp [set_priority_mode, hb]
    · by_cases hw : s.priority_mode = "whitelist" <;>
        simp [set_priority_mode, hb, hw]
  · by_cases hw : s.priority_mode = "whitelist"
    · simp [set_priority_mode, hw]
    · by_cases hb : s.priority_mode = "blacklist" <;>
        simp [set_priority_mode, hw, hb]

/-- C7: `set_priority_mode` changes only the mode field and preserves both
contact lists (and the rest of the state); a legal target mode is installed
with an advisory string that is non-empty exactly for a direct
whitelist/blacklist switch; an illegal mode fails with a ValueError and no
state change. -/
theorem set_priority_mode_spec (s : StateManager) (mode : String) :
    ((set_priority_mode s mode).1.priority_whitelist = s.priority_whitelist ∧
     (set_priority_mode s mode).1.priority_blacklist = s.priority_blacklist ∧
     (set_priority_mode s mode).1.processed_messages = s.processed_messages ∧
     (set_priority_mode s mode).1.snooze_queue = s.snooze_queue) ∧
    ((mode = "disabled" ∨ mode = "whitelist" ∨ mode = "blacklist") →
      (set_priority_mode s mode).1.priority_mode = mode ∧
      ∃ w, (set_priority_mode s mode).2 = Except.ok w ∧
        (w ≠ "" ↔ ((s.priority_mode = "whitelist" ∧ mode = "blacklist") ∨
                   (s.priority_mode = "blacklist" ∧ mode = "whitelist")))) ∧
    ((mode ≠ "disabled" ∧ mode ≠ "whitelist" ∧ mode ≠ "blacklist") →
      set_priority_mode s mode = (s, Except.error ("Invalid mode: " ++ mode))) :=
  ⟨spm_frame s mode, spm_legal s mode, spm_illegal s mode⟩

/-- C7 witness: a whitelist-to-blacklist switch preserves the whitelist and
installs the new mode; an illegal mode is rejected with the state returned
unchanged. -/
theorem set_priority_mode_spec_witness :
    (set_priority_mode wlState "blacklist").1.priority_whitelist = wlState.priority_whitelist ∧
    (set_priority_mode wlState "blacklist").1.priority_mode = "blacklist" ∧
    set_priority_mode (initial 0) "bogus" =
      (initial 0, Except.error ("Invalid mode: " ++ "bogus")) :=
  ⟨(set_priority_mode_spec wlState "blacklist").1.1,
   ((set_priority_mode_spec wlState "blacklist").2.1 (Or.inr (Or.inr rfl))).1,
   (set_priority_mode_spec (initial 0) "bogus").2.2 ⟨by decide, by decide, by decide⟩⟩

/-- The flush loop's event trace is one dispatch per entry with a non-empty
message, in list order, independently of the per-entry outcomes. -/
theorem deliverLoop_events (send : Nat → String → DOutcome) (idx : Nat)
    (q : List AlertData) :
    (deliverLoop send idx q).1 =
      q.filterMap (fun a =>
        if a.message = "" then none
        else some (FlushEvent.sendAttempt a.message)) := by
  induction q generalizing idx with
  | nil => rfl
  | cons a rest ih =>
      unfold deliverLoop
      dsimp only
      by_cases h : a.message = "" <;> simp [h, ih]

/-- Snoozed state with a pending two-entry queue, about to expire at 10. -/
def cexFlushState : StateManager :=
  { initial 0 with
    snooze_active := true
    snooze_until := some 10
    snooze_behavior := "queue"
    snooze_queue := [⟨"m1", "DM", 1, 2⟩, ⟨"m2", "Mention", 1, 3⟩] }

/-- Every dispatch raises. -/
def sendRaise : Nat → String → DOutcome := fun _ _ => DOutcome.raised

/-- Every dispatch returns normally. -/
def sendOk : Nat → String → DOutcome := fun _ _ => DOutcome.returned true

/-- C2 counterexample: on a concrete two-entry queue the flush trace begins
with the queue-clearing save, and the delivery dispatches come after it —
the claim requires the queue to be cleared only after the flush attempt,
not before any delivery is attempted. -/
theorem deliver_clears_before_attempts_cex :
    ((deliver_snooze_queue cexFlushState sendRaise).2.1).head? =
      some FlushEvent.queueCleared ∧
    FlushEvent.sendAttempt "m1" ∈
      ((deliver_snooze_queue cexFlushState sendRaise).2.1).tail := by
  decide

/-- C2 amended: when the scheduler tick observes that the snooze just
expired, the orchestrator snapshots the queue, clears and saves it FIRST,
and then attempts delivery of every snapshotted entry with a non-empty
message in original insertion order; the trace does not depend on the
per-entry outcomes, so one entry's failure never blocks later entries. -/
theorem run_tick_snooze_flush (s : StateManager) (now u : Int)
    (send send2 : Nat → String → DOutcome)
    (hact : s.snooze_active = true) (hu : s.snooze_until = some u)
    (hu0 : u ≠ 0) (hexp : now > u) (hq : s.snooze_queue ≠ []) :
    (run_tick_snooze s now send).1.snooze_queue = [] ∧
    (run_tick_snooze s now send).2.1 =
      FlushEvent.queueCleared ::
        s.snooze_queue.filterMap (fun a =>
          if a.message = "" then none
          else some (FlushEvent.sendAttempt a.message)) ∧
    (run_tick_snooze s now send).2.1 = (run_tick_snooze s now send2).2.1 := by
  have hcheck : check_snooze_expired s now =
      (true, { s with snooze_active := false }) := by
    unfold check_snooze_expired
    rw [hact, hu]
    simp [untilTruthy, hu0, hexp]
  have hdeliver : ∀ (sd : Nat → String → DOutcome),
      (deliver_snooze_queue { s with snooze_active := false } sd).1.snooze_queue = [] ∧
      (deliver_snooze_queue { s with snooze_active := false } sd).2.1 =
        FlushEvent.queueCleared ::
          s.snooze_queue.filterMap (fun a =>
            if a.message = "" then none
            else some (FlushEvent.sendAttempt a.message)) := by
    intro sd
    unfold deliver_snooze_queue
    dsimp only
    rw [if_neg hq]
    exact ⟨rfl, by rw [deliverLoop_events]⟩
  have hrun : ∀ (sd : Nat → String → DOutcome),
      run_tick_snooze s now sd =
        deliver_snooze_queue { s with snooze_active := false } sd := by
    intro sd
    unfold run_tick_snooze
    rw [hcheck]
    rfl
  refine ⟨?_, ?_, ?_⟩
  · rw [hrun]
    exact (hdeliver send).1
  · rw [hrun]
    exact (hdeliver send).2
  · rw [hrun, hrun, (hdeliver send).2, (hdeliver send2).2]

/-- C2 witness: `run_tick_snooze_flush` on the concrete expiring state at
`now = 11`, with an all-raising and an all-succeeding channel. -/
theorem run_tick_snooze_flush_witness :
    (run_tick_snooze cexFlushState 11 sendRaise).1.snooze_queue = [] ∧
    (run_tick_snooze cexFlushState 11 sendRaise).2.1 =
      FlushEvent.queueCleared ::
        cexFlushState.snooze_queue.filterMap (fun a =>
          if a.message = "" then none
          else some (FlushEvent.sendAttempt a.message)) ∧
    (run_tick_snooze cexFlushState 11 sendRaise).2.1 =
      (run_tick_snooze cexFlushState 11 sendOk).2.1 :=
  run_tick_snooze_flush cexFlushState 11 10 sendRaise sendOk rfl rfl
    (by decide) (by decide) (by decide)

/-- One `queue_alert` call preserves the capacity bound and the limit. -/
theorem queue_alert_step (s : StateManager) (a : AlertData) :
    (queue_alert s a).2.queue_limit = s.queue_limit ∧
    (1 ≤ s.queue_limit → s.snooze_queue.length ≤ s.queue_limit →
      (queue_alert s a).2.snooze_queue.length ≤ s.queue_limit) := by
  unfold queue_alert
  by_cases h : s.snooze_behavior = "queue" <;> simp [h]
  intro h1 h2
  by_cases hlen : s.queue_limit ≤ s.snooze_queue.length <;>
    simp [hlen, List.length_tail] <;> omega

/-- Any sequence of `queue_alert` calls preserves the capacity bound. -/
theorem enqueueFold_limit (s : StateManager) (alerts : List AlertData)
    (h1 : 1 ≤ s.queue_limit) (h2 : s.snooze_queue.length ≤ s.queue_limit) :
    (enqueueFold s alerts).snooze_queue.length ≤ s.queue_limit := by
  induction alerts generalizing s with
  | nil => exact h2
  | cons a rest ih =>
      have hstep := queue_alert_step s a
      have hrec := ih (queue_alert s a).2 (hstep.1 ▸ h1)
        (by rw [hstep.1]; exact hstep.2 h1 h2)
      calc (enqueueFold s (a :: rest)).snooze_queue.length
          = (enqueueFold (queue_alert s a).2 rest).snooze_queue.length := rfl
        _ ≤ (queue_alert s a).2.queue_limit := hrec
        _ = s.queue_limit := hstep.1

/-- The i-th distinct alert payload. -/
def alertN (i : Nat) : AlertData := ⟨"msg" ++ toString i, "DM", 0, Int.ofNat i⟩

/-- An ActiveQueue state with the default capacity 100 and an empty queue. -/
def qState : StateManager :=
  { initial 0 with snooze_active := true, snooze_behavior := "queue" }

/-- 101 = capacity + 1 pairwise distinct alert payloads. -/
def alerts101 : List AlertData := (List.range 101).map alertN

set_option maxRecDepth 10000

/-- C8: the queue length never exceeds `queue_limit` under any sequence of
`queue_alert` calls, and appending capacity + 1 distinct payloads to an
empty queue retains exactly the most recent 100 in insertion order, with
insertion index 0 evicted and index 1 at the front. -/
theorem queue_alert_capacity :
    (∀ (s : StateManager) (alerts : List AlertData),
        1 ≤ s.queue_limit → s.snooze_queue.length ≤ s.queue_limit →
        (enqueueFold s alerts).snooze_queue.length ≤ s.queue_limit) ∧
    qState.queue_limit = 100 ∧ alerts101.length = 101 ∧ alerts101.Nodup ∧
    (enqueueFold qState alerts101).snooze_queue.length = 100 ∧
    (enqueueFold qState alerts101).snooze_queue = alerts101.drop 1 ∧
    (enqueueFold qState alerts101).snooze_queue.head? = some (alertN 1) :=
  ⟨enqueueFold_limit, by decide⟩

/-- C8 witness: the universally quantified bound of `queue_alert_capacity`
applied at the concrete ActiveQueue state with one insertion. -/
theorem queue_alert_capacity_witness :
    1 ≤ qState.queue_limit ∧ qState.snooze_queue.length ≤ qState.queue_limit ∧
    (enqueueFold qState [alertN 0]).snooze_queue.length ≤ qState.queue_limit :=
  ⟨by decide, by decide,
   queue_alert_capacity.1 qState [alertN 0] (by decide) (by decide)⟩

/-- C9: with the channel modelled as a function from attempt number to
response and the default ceiling of 3 attempts, two transient failures
followed by a success make `send_alert` return True after exactly 3
attempts, and a channel that always fails makes it return False after
exactly 3 attempts and no more.  The model is a total function, matching
the method's contract of always returning a boolean and never raising. -/
theorem send_alert_retry_spec (responses : Nat → SendResponse) :
    ((isFailure (responses 0) = true ∧ isFailure (responses 1) = true ∧
      responses 2 = SendResponse.success) → send_alert responses 3 = (true, 3)) ∧
    ((∀ n, isFailure (responses n) = true) → send_alert responses 3 = (false, 3)) := by
  constructor
  · rintro ⟨h0, h1, h2⟩
    cases hr0 : responses 0 <;> rw [hr0] at h0 <;> simp [isFailure] at h0
    all_goals
      cases hr1 : responses 1 <;> rw [hr1] at h1 <;> simp [isFailure] at h1
    all_goals
      simp [send_alert, send_alert_loop, hr0, hr1, h2]
  · intro hall
    have h0 := hall 0
    have h1 := hall 1
    have h2 := hall 2
    cases hr0 : responses 0 <;> rw [hr0] at h0 <;> simp [isFailure] at h0
    all_goals
      cases hr1 : responses 1 <;> rw [hr1] at h1 <;> simp [isFailure] at h1
    all_goals
      cases hr2 : responses 2 <;> rw [hr2] at h2 <;> simp [isFailure] at h2
    all_goals
      simp [send_alert, send_alert_loop, hr0, hr1, hr2]

/-- Channel failing transiently on the first two attempts, then succeeding. -/
def respTransient : Nat → SendResponse :=
  fun n => if n < 2 then SendResponse.networkError else SendResponse.success

/-- Channel failing on every attempt. -/
def respAlwaysFail : Nat → SendResponse := fun _ => SendResponse.networkError

/-- C9 witness: both parts of `send_alert_retry_spec` at concrete channels. -/
theorem send_alert_retry_spec_witness :
    send_alert respTransient 3 = (true, 3) ∧
    send_alert respAlwaysFail 3 = (false, 3) :=
  ⟨(send_alert_retry_spec respTransient).1 ⟨by decide, by decide, by decide⟩,
   (send_alert_retry_spec respAlwaysFail).2 (fun _ => rfl)⟩

end TgNotifier
